import Mathlib

/-!
Verification of the milvus-operator reconciliation core.

The repository ships the status-syncer and deployment-updater test suites
together with the helm dependency reconciler (`pkg/controllers/dependencies.go`).
The deployment updater, status syncer, prober and deploy-status aggregator
implementations themselves are not part of the source tree here, so those
parts are modelled from the specification document and checked against it;
`LocalHelmReconciler.Reconcile` is embedded directly from the Go source.
-/

namespace MilvusOperator

/-! ## Health status model (spec section 4.6) -/

/-- Overall health of a Milvus CR: Pending, Healthy, Unhealthy, Stopped or
Deleting (`ClusterStatus` in the spec's data model). -/
inductive MilvusHealthStatus where
  | pending
  | healthy
  | unhealthy
  | stopped
  | deleting
deriving DecidableEq, Repr

/-- Input of the per-CR health state machine: the last recorded state plus the
two boolean observations of the current cycle. -/
structure MilvusHealthStatusInfo where
  LastState : MilvusHealthStatus
  IsHealthy : Bool
  IsStopping : Bool
deriving DecidableEq, Repr

/-- Modelled from the spec: the transition function
`MilvusHealthStatusInfo.GetMilvusHealthStatus`, whose Go implementation is not
under src (only its tests are).  Spec 4.6: isStopping always wins and yields
Stopped; else isHealthy yields Healthy; else a cluster that has never been
ready (Pending) stays Pending, and a Stopped cluster resumes through Pending
(spec section 8); else Unhealthy. -/
def GetMilvusHealthStatus (m : MilvusHealthStatusInfo) : MilvusHealthStatus :=
  if m.IsStopping then MilvusHealthStatus.stopped
  else if m.IsHealthy then MilvusHealthStatus.healthy
  else if m.LastState = MilvusHealthStatus.pending ∨ m.LastState = MilvusHealthStatus.stopped then
    MilvusHealthStatus.pending
  else MilvusHealthStatus.unhealthy

/-! ## Replica rule (spec section 4.3 rule 3) -/

/-- Modelled from the spec: the deployment updater's replica rule, whose Go
implementation is not under src.  Desired `-1` preserves the current replica
count except that a stopped deployment (current `0`) is resumed to `1`;
any other desired value overwrites the current count. -/
def updateReplicas (desired current : Int) : Int :=
  if desired = -1 then (if current = 0 then 1 else current) else desired

/-! ## Rolling-update dependency graph (spec section 4.4) -/

/-- The fixed enumerable set of component identities. -/
inductive MilvusComponent where
  | mixCoord
  | rootCoord
  | dataCoord
  | queryCoord
  | indexCoord
  | proxy
  | dataNode
  | queryNode
  | indexNode
  | streamingNode
  | standalone
deriving DecidableEq, Repr

/-- Per-component deploy status record as read back by the deploy-status
aggregator and consumed by the rolling-update gate: recorded image, whether
the deployment reports a ready condition, and the recorded generation. -/
structure ComponentDeployStatus where
  image : String
  ready : Bool
  generation : Int
deriving DecidableEq, Repr

/-- Image update modes from the spec data model. -/
inductive ImageUpdateMode where
  | allAtOnce
  | rollingUpgrade
  | rollingDowngrade
  | disabled
deriving DecidableEq, Repr

/-- Everything the rolling-update image gate of one component reads on one
pass: the component's statically declared upgrade dependencies and downgrade
dependents, the mode, the newly desired image, the last successfully-deployed
image from status, the current generation and the recorded per-component
deploy status map (`none` when a component has no record). -/
structure RollingUpdateContext where
  upgradeDeps : List MilvusComponent
  downgradeDeps : List MilvusComponent
  mode : ImageUpdateMode
  desiredImage : String
  currentImage : String
  currentGeneration : Int
  deployStatus : MilvusComponent → Option ComponentDeployStatus

/-- The edge set matching the direction of the desired change: downgrade
dependents in RollingDowngrade mode, upgrade dependencies otherwise. -/
def requiredDeps (ctx : RollingUpdateContext) : List MilvusComponent :=
  match ctx.mode with
  | ImageUpdateMode.rollingDowngrade => ctx.downgradeDeps
  | _ => ctx.upgradeDeps

/-- Whether one required dependency's record allows the change: the record
must exist with image equal to the desired image, a ready condition, and
generation equal to the current one.  A missing record is not ready. -/
def dependencyRecordReady (ctx : RollingUpdateContext) (c : MilvusComponent) : Bool :=
  match ctx.deployStatus c with
  | none => false
  | some r =>
    r.image == ctx.desiredImage && r.ready && r.generation == ctx.currentGeneration

/-- Modelled from the spec: `RollingUpdateImageDependencyReady`, whose Go
implementation is not under src (only its tests are).  Every dependency in
the direction-matching edge set must have a ready record. -/
def RollingUpdateImageDependencyReady (ctx : RollingUpdateContext) : Bool :=
  (requiredDeps ctx).all (fun c => dependencyRecordReady ctx c)

/-- Modelled from the spec: the image rule of the deployment updater (spec
section 4.3 rule 4).  Mode All updates unconditionally; RollingUpgrade and
RollingDowngrade update only when the dependency gate holds and otherwise pin
to the last successfully-deployed image; disabled never changes the image via
this path. -/
def updateImage (ctx : RollingUpdateContext) : String :=
  match ctx.mode with
  | ImageUpdateMode.allAtOnce => ctx.desiredImage
  | ImageUpdateMode.disabled => ctx.currentImage
  | _ =>
    if RollingUpdateImageDependencyReady ctx then ctx.desiredImage else ctx.currentImage

/-! ## Config init container (spec section 4.3 rule 5) -/

/-- A container, reduced to the fields the claims are about. -/
structure Container where
  name : String
  image : String
deriving DecidableEq, Repr

/-- Name of the fixed config init container. -/
def configContainerName : String := "config"

/-- Whether the init-container list already holds the config container. -/
def containsConfigContainer (l : List Container) : Bool :=
  l.any (fun c => c.name == configContainerName)

/-- Number of init containers carrying the config container's name. -/
def countConfig (l : List Container) : Nat :=
  l.countP (fun c => c.name == configContainerName)

/-- Refresh the config container's image to the operator tool image, leaving
every other container alone. -/
def refreshToolImage (toolImage : String) (c : Container) : Container :=
  if c.name == configContainerName then { c with image := toolImage } else c

/-- Inject the config init container by name when absent. -/
def injectConfigContainer (toolImage : String) (l : List Container) : List Container :=
  if containsConfigContainer l then l
  else { name := configContainerName, image := toolImage } :: l

/-- Modelled from the spec: the config init-container rule of the deployment
updater, whose Go implementation is not under src (only its tests are).  The
config init container is injected by name if absent; its image is refreshed
to the operator tool image only when the pod template changed for another
reason this pass or the explicit force flag (`UpdateToolImage`) is set. -/
def updateConfigContainer (templateChanged forceUpdate : Bool) (toolImage : String)
    (l : List Container) : List Container :=
  if templateChanged || forceUpdate then
    (injectConfigContainer toolImage l).map (refreshToolImage toolImage)
  else injectConfigContainer toolImage l

/-! ## Deploy-status aggregator (spec section 4.5) -/

/-- A workload object owned by the cluster CR, as seen by the aggregator:
its component-identity label and the recorded facts. -/
structure OwnedDeployment where
  componentLabel : String
  image : String
  generation : Int
  observedGeneration : Int
deriving DecidableEq, Repr

/-- The per-component facts the aggregator writes back. -/
structure DeployStatusEntry where
  image : String
  generation : Int
  observedGeneration : Int
deriving DecidableEq, Repr

/-- The entry recorded for one owned workload object. -/
def entryOf (d : OwnedDeployment) : DeployStatusEntry :=
  { image := d.image, generation := d.generation, observedGeneration := d.observedGeneration }

/-- Insert into the per-component map (an association list keyed by
component-identity label), replacing an existing entry for the same key. -/
def insertEntry (m : List (String × DeployStatusEntry)) (k : String) (v : DeployStatusEntry) :
    List (String × DeployStatusEntry) :=
  if m.any (fun p => p.1 == k) then m.map (fun p => if p.1 == k then (k, v) else p)
  else m ++ [(k, v)]

/-- Index the owned workload objects by component-identity label. -/
def buildDeployStatusMap (l : List OwnedDeployment) : List (String × DeployStatusEntry) :=
  l.foldl (fun m d => insertEntry m d.componentLabel (entryOf d)) []

/-- Modelled from the spec: `componentsDeployStatusUpdaterImpl.Update`, whose
Go implementation is not under src (only its tests are).  It lists the owned
workload objects (the list call may fail, which is the only error source) and
writes back one map entry per component-identity label; zero owned objects
yield an empty map, not an error. -/
def componentsDeployStatusUpdate (listResult : Except String (List OwnedDeployment)) :
    Except String (List (String × DeployStatusEntry)) :=
  match listResult with
  | Except.error e => Except.error e
  | Except.ok l => Except.ok (buildDeployStatusMap l)

/-! ## updateDeployment (spec section 4.3) -/

/-- Entry script prepended to the container command. -/
def runScriptPath : String := "/milvus/tools/run.sh"

/-- Name of the embedded-queue data volume. -/
def MilvusDataVolumeName : String := "milvus-data"

/-- Embedded-queue persistence rule: enabled adds the matching data volume if
absent (matched by name, not index); disabled removes it. -/
def updateDataVolumes (enabled : Bool) (vols : List String) : List String :=
  if enabled then
    (if vols.contains MilvusDataVolumeName then vols else vols ++ [MilvusDataVolumeName])
  else vols.filter (fun v => !(v == MilvusDataVolumeName))

/-- Inputs of one updateDeployment pass for one component. -/
structure MilvusDeploymentUpdater where
  commands : List String
  desiredReplicas : Int
  rolling : RollingUpdateContext
  toolImage : String
  forceToolImage : Bool
  podTemplateChanged : Bool
  persistenceEnabled : Bool
  hostNetwork : Bool
  dnsPolicy : String

/-- The mutable workload shape the updater touches. -/
structure DeploymentState where
  args : List String
  replicas : Int
  image : String
  initContainers : List Container
  volumes : List String
  hostNetwork : Bool
  dnsPolicy : String
deriving DecidableEq, Repr

/-- Steps 2-7 of updateDeployment: field-local total rules. -/
def applyDeploymentRules (u : MilvusDeploymentUpdater) (d : DeploymentState) : DeploymentState :=
  { args := runScriptPath :: u.commands
    replicas := updateReplicas u.desiredReplicas d.replicas
    image := updateImage u.rolling
    initContainers := updateConfigContainer u.podTemplateChanged u.forceToolImage u.toolImage d.initContainers
    volumes := updateDataVolumes u.persistenceEnabled d.volumes
    hostNetwork := u.hostNetwork
    dnsPolicy := u.dnsPolicy }

/-- Modelled from the spec: `updateDeployment`, whose Go implementation is
not under src (only its tests are).  Step 1 sets the owner back-reference,
whose outcome is the `ownerRef` argument; its failure is the only fatal
error, after which no rule applies; on success all field rules apply. -/
def updateDeployment (ownerRef : Except String Unit) (u : MilvusDeploymentUpdater)
    (d : DeploymentState) : Except String DeploymentState :=
  match ownerRef with
  | Except.error e => Except.error e
  | Except.ok _ => Except.ok (applyDeploymentRules u d)

/-- Whether an Except value is a success. -/
def exceptIsOk {ε α : Type} : Except ε α → Bool
  | Except.ok _ => true
  | Except.error _ => false

/-! ## Dependency condition aggregator (spec section 4.2) -/

/-- Tri-state condition status mirroring corev1.ConditionStatus. -/
inductive ConditionStatus where
  | condTrue
  | condFalse
  | condUnknown
deriving DecidableEq, Repr

/-- A named condition attached to status. -/
structure MilvusCondition where
  condType : String
  status : ConditionStatus
  reason : String
deriving DecidableEq, Repr

/-- Reason recorded for a dependency that needs no external check. -/
def reasonNotManaged : String := "external or self-contained dependency, not managed"

/-- Reason recorded for a successful probe. -/
def reasonProbeOk : String := "probe succeeded"

/-- Modelled from the spec: the per-dependency condition getter of the status
syncer (GetEtcdCondition, GetMinioCondition, GetMsgStreamCondition), whose Go
implementation is not under src (only its tests are).  An external or
self-contained dependency is unconditionally True; an in-cluster managed one
delegates to the prober, and a probe failure yields a False condition with
the error text as reason while the getter itself returns no error. -/
def GetDependencyCondition (condType : String) (external selfContained : Bool)
    (probe : Except String Unit) : Except String MilvusCondition :=
  if external || selfContained then
    Except.ok { condType := condType, status := ConditionStatus.condTrue, reason := reasonNotManaged }
  else
    match probe with
    | Except.ok _ =>
      Except.ok { condType := condType, status := ConditionStatus.condTrue, reason := reasonProbeOk }
    | Except.error e =>
      Except.ok { condType := condType, status := ConditionStatus.condFalse, reason := e }

/-- Declared message-stream kinds. -/
inductive MsgStreamType where
  | pulsar
  | kafka
  | rocksmq
  | custom
deriving DecidableEq, Repr

/-- Whether a message-stream kind is self-contained (embedded rocksmq or a
custom stream), requiring no external check. -/
def msgStreamSelfContained : MsgStreamType → Bool
  | MsgStreamType.rocksmq => true
  | MsgStreamType.custom => true
  | _ => false

/-- Condition type name for the message stream. -/
def msgStreamCondType : String := "MsgStreamReady"

/-- Message-stream condition: dispatches on the declared kind. -/
def GetMsgStreamCondition (t : MsgStreamType) (external : Bool)
    (probe : Except String Unit) : Except String MilvusCondition :=
  GetDependencyCondition msgStreamCondType external (msgStreamSelfContained t) probe

/-! ## LocalHelmReconciler.Reconcile
(embedded from src/pkg/controllers/dependencies.go) -/

/-- A helm chart value: enough structure for the spec's loosely-typed
map-valued install requests. -/
inductive HelmVal where
  | b (v : Bool)
  | s (v : String)
  | i (v : Int)
deriving DecidableEq, Repr

/-- Helm values: a Go map modelled as a canonical association list; Go's
reflect.DeepEqual on two such maps is equality of the lists. -/
abbrev HelmValues := List (String × HelmVal)

/-- Go `m[k] = v`: replace the entry when the key exists, append otherwise. -/
def setValue (vs : HelmValues) (k : String) (v : HelmVal) : HelmValues :=
  if vs.any (fun p => p.1 == k) then vs.map (fun p => if p.1 == k then (k, v) else p)
  else vs ++ [(k, v)]

/-- Go `delete(m, k)`. -/
def deleteValue (vs : HelmValues) (k : String) : HelmValues :=
  vs.filter (fun p => !(p.1 == k))

/-- Pulsar's one-time initialization key. -/
def initKey : String := "initialize"

/-- The chart path of the Pulsar chart (`helm.GetChartPathByName(Pulsar)`). -/
def pulsarChartPath : String := "pulsar"

/-- `IsPulsarChartPath` from dependencies.go. -/
def IsPulsarChartPath (chartPath : String) : Bool :=
  chartPath == pulsarChartPath

/-- A dependency install request (`helm.ChartRequest`), reduced to the fields
Reconcile reads. -/
structure ChartRequest where
  chart : String
  releaseName : String
  values : HelmValues
deriving DecidableEq, Repr

/-- The observable operation Reconcile ends up performing. -/
inductive HelmAction where
  | install (vals : HelmValues)
  | update (vals : HelmValues)
  | noop
deriving DecidableEq, Repr

/-- Values sent on the install path: for the Pulsar chart the request value
`initialize` is set to true first. -/
def installValues (req : ChartRequest) : HelmValues :=
  if IsPulsarChartPath req.chart then setValue req.values initKey (HelmVal.b true)
  else req.values

/-- Values sent on the update path: for the Pulsar chart the request value
`initialize` is set to false first. -/
def updateValues (req : ChartRequest) : HelmValues :=
  if IsPulsarChartPath req.chart then setValue req.values initKey (HelmVal.b false)
  else req.values

/-- The deployed values entering the drift comparison: for the Pulsar chart
the `initialize` key is deleted first. -/
def effectiveDeployedValues (chart : String) (vals : HelmValues) : HelmValues :=
  if IsPulsarChartPath chart then deleteValue vals initKey else vals

/-- `LocalHelmReconciler.Reconcile` from src/pkg/controllers/dependencies.go,
over an abstract helm interface: `exist` is what helm.ReleaseExist returns,
`vals` what helm.GetValues returns, `needUpdate` what
helm.NeedUpdate(status) computes; the result is the action performed.  When
the release does not exist it installs; otherwise it deletes Pulsar's
`initialize` key from the deployed values, compares them to the request
values with reflect.DeepEqual, and is a no-op exactly when they are equal
and no update is needed, performing the update otherwise. -/
def reconcileHelm (exist : Bool) (vals : HelmValues) (needUpdate : Bool)
    (req : ChartRequest) : HelmAction :=
  if exist = false then HelmAction.install (installValues req)
  else
    if effectiveDeployedValues req.chart vals = req.values ∧ needUpdate = false then
      HelmAction.noop
    else HelmAction.update (updateValues req)

/-! ## Concrete inputs mirroring the repository's test cases -/

/-- Image v2.5.0 from the 2.6 upgrade dependency graph test. -/
def oldImage26 : String := "milvusdb/milvus:v2.5.0"

/-- Image v2.6.0 from the 2.6 upgrade dependency graph test. -/
def newImage26 : String := "milvusdb/milvus:v2.6.0"

/-- The rolling-update pass of the "verify 2.6 upgrade dependency graph"
test: MixCoord upgrading from v2.5.0 to v2.6.0 while its required dependency
StreamingNode has no deploy-status record yet. -/
def ctx26 : RollingUpdateContext :=
  { upgradeDeps := [MilvusComponent.streamingNode]
    downgradeDeps := []
    mode := ImageUpdateMode.rollingUpgrade
    desiredImage := newImage26
    currentImage := oldImage26
    currentGeneration := 1
    deployStatus := fun c =>
      match c with
      | MilvusComponent.mixCoord =>
        some { image := "milvusdb/milvus:v2.5.0", ready := false, generation := 0 }
      | _ => none }

/-- Component label of the proxy deployment in the cluster test. -/
def proxyLabel : String := "proxy"

/-- Component label of the mixcoord deployment in the cluster test. -/
def mixCoordLabel : String := "mixcoord"

/-- Component label of the datanode deployment in the cluster test. -/
def dataNodeLabel : String := "datanode"

/-- Sample image for owned deployments. -/
def sampleImage : String := "milvusdb/milvus:v2.3.0"

/-- The three owned deployments of the cluster aggregator test, with three
distinct component-identity labels. -/
def ownedThree : List OwnedDeployment :=
  [ { componentLabel := proxyLabel, image := sampleImage, generation := 1, observedGeneration := 1 }
  , { componentLabel := mixCoordLabel, image := sampleImage, generation := 1, observedGeneration := 1 }
  , { componentLabel := dataNodeLabel, image := sampleImage, generation := 1, observedGeneration := 1 } ]

/-- Sample operator tool image. -/
def toolImageSample : String := "milvus-operator:sample-tool"

/-- An empty image string, as on the manually cleared config container. -/
def emptyImage : String := ""

/-- The config init container with a cleared image, as in the "not update
configContainer when podTemplate not updated" test. -/
def bareConfigContainer : Container :=
  { name := configContainerName, image := emptyImage }

/-- Condition type name for etcd. -/
def etcdCondType : String := "EtcdReady"

/-- Probe error text used by the dependency-condition tests. -/
def probeErrText : String := "test"

/-- Chart path of the etcd chart. -/
def etcdChartPath : String := "etcd"

/-- Release name for the etcd witness. -/
def etcdReleaseName : String := "my-release-etcd"

/-- Release name for the pulsar requests. -/
def pulsarReleaseName : String := "my-release-pulsar"

/-- A helm values key distinct from the initialization key. -/
def componentsKey : String := "components"

/-- Deployed and requested values of the etcd no-op witness. -/
def etcdValsW : HelmValues := [(componentsKey, HelmVal.b false)]

/-- An etcd install request whose release already exists. -/
def etcdReqW : ChartRequest :=
  { chart := etcdChartPath, releaseName := etcdReleaseName, values := etcdValsW }

/-- Deployed values of the Pulsar counterexample: only the one-time
initialization flag. -/
def pulsarValsCE : HelmValues := [(initKey, HelmVal.b true)]

/-- A Pulsar install request whose values deep-equal the deployed values of
the counterexample. -/
def pulsarReqCE : ChartRequest :=
  { chart := pulsarChartPath, releaseName := pulsarReleaseName, values := pulsarValsCE }

/-- A Pulsar install request without the initialization key. -/
def pulsarReqW : ChartRequest :=
  { chart := pulsarChartPath, releaseName := pulsarReleaseName
    values := [(componentsKey, HelmVal.b false)] }

/-! ## Theorems -/

/-- Claim C2: for every lastState in Pending, Healthy, Unhealthy, Stopped
and all booleans, the health transition returns Stopped whenever isStopping
holds; else Healthy whenever isHealthy holds; else Pending whenever the last
state is Pending or Stopped (in particular Stopped resumes through Pending);
else Unhealthy; and re-applying the function to its own output with
unchanged observations yields the same result. -/
theorem milvusHealthStatus_transition (m : MilvusHealthStatusInfo) :
    (m.IsStopping = true → GetMilvusHealthStatus m = MilvusHealthStatus.stopped)
    ∧ (m.IsStopping = false → m.IsHealthy = true →
        GetMilvusHealthStatus m = MilvusHealthStatus.healthy)
    ∧ (m.IsStopping = false → m.IsHealthy = false →
        (m.LastState = MilvusHealthStatus.pending ∨ m.LastState = MilvusHealthStatus.stopped) →
        GetMilvusHealthStatus m = MilvusHealthStatus.pending)
    ∧ (m.IsStopping = false → m.IsHealthy = false →
        (m.LastState = MilvusHealthStatus.healthy ∨ m.LastState = MilvusHealthStatus.unhealthy) →
        GetMilvusHealthStatus m = MilvusHealthStatus.unhealthy)
    ∧ GetMilvusHealthStatus
        { LastState := GetMilvusHealthStatus m, IsHealthy := m.IsHealthy
          IsStopping := m.IsStopping }
      = GetMilvusHealthStatus m := by
  obtain ⟨last, hB, sB⟩ := m
  cases last <;> cases hB <;> cases sB <;> decide

/-- Witness for claim C2 at the resume transition and the stopping input. -/
theorem milvusHealthStatus_transition_witness :
    GetMilvusHealthStatus
      { LastState := MilvusHealthStatus.stopped, IsHealthy := false, IsStopping := false }
      = MilvusHealthStatus.pending
    ∧ GetMilvusHealthStatus
      { LastState := MilvusHealthStatus.stopped, IsHealthy := false, IsStopping := true }
      = MilvusHealthStatus.stopped := by
  constructor
  · exact (milvusHealthStatus_transition
      { LastState := MilvusHealthStatus.stopped, IsHealthy := false
        IsStopping := false }).2.2.1 rfl rfl (Or.inr rfl)
  · exact (milvusHealthStatus_transition
      { LastState := MilvusHealthStatus.stopped, IsHealthy := false
        IsStopping := true }).1 rfl

/-- Claim C3: the replica rule preserves the current count for desired -1
except that a current count of 0 is resumed to 1; desired 0 forces 0; every
desired value at least 0 overwrites the current count unconditionally. -/
theorem updateReplicas_rule (d c : Int) :
    (d = -1 → (c = 0 → updateReplicas d c = 1) ∧ (c ≠ 0 → updateReplicas d c = c))
    ∧ updateReplicas 0 c = 0
    ∧ (0 ≤ d → updateReplicas d c = d) := by
  refine ⟨?_, ?_, ?_⟩
  · rintro rfl
    constructor
    · rintro rfl; simp [updateReplicas]
    · intro hc; simp [updateReplicas, hc]
  · norm_num [updateReplicas]
  · intro hd
    have hne : d ≠ -1 := by omega
    simp [updateReplicas, hne]

/-- Witness for claim C3 at the test cases of "test replicas". -/
theorem updateReplicas_rule_witness :
    updateReplicas (-1) 0 = 1 ∧ updateReplicas (-1) 99 = 99 ∧ updateReplicas 2 99 = 2 := by
  refine ⟨?_, ?_, ?_⟩
  · exact ((updateReplicas_rule (-1) 0).1 rfl).1 rfl
  · exact ((updateReplicas_rule (-1) 99).1 rfl).2 (by norm_num)
  · exact (updateReplicas_rule 2 99).2.2 (by norm_num)

/-- Claim C1: in RollingUpgrade or RollingDowngrade mode the updater moves a
component's container image to the newly desired image exactly when
`RollingUpdateImageDependencyReady` holds over the direction-matching edge
set; a missing record makes a dependency not ready; any required dependency
that is not ready forces the predicate false and pins the image to the last
successfully-deployed image rather than the newly desired one. -/
theorem rollingUpdate_image_gated (ctx : RollingUpdateContext)
    (hm : ctx.mode = ImageUpdateMode.rollingUpgrade ∨ ctx.mode = ImageUpdateMode.rollingDowngrade) :
    (RollingUpdateImageDependencyReady ctx = true → updateImage ctx = ctx.desiredImage)
    ∧ (RollingUpdateImageDependencyReady ctx = false → updateImage ctx = ctx.currentImage)
    ∧ (∀ c, ctx.deployStatus c = none → dependencyRecordReady ctx c = false)
    ∧ (∀ c, c ∈ requiredDeps ctx → dependencyRecordReady ctx c = false →
        RollingUpdateImageDependencyReady ctx = false ∧ updateImage ctx = ctx.currentImage)
    ∧ (updateImage ctx = ctx.desiredImage → ctx.desiredImage ≠ ctx.currentImage →
        RollingUpdateImageDependencyReady ctx = true) := by
  refine ⟨?_, ?_, ?_, ?_, ?_⟩
  · intro h
    rcases hm with hm | hm <;> simp [updateImage, hm, h]
  · intro h
    rcases hm with hm | hm <;> simp [updateImage, hm, h]
  · intro c hc
    simp [dependencyRecordReady, hc]
  · intro c hcmem hcfalse
    have hall : RollingUpdateImageDependencyReady ctx = false := by
      cases hA : RollingUpdateImageDependencyReady ctx
      · rfl
      · exfalso
        have hmem := List.all_eq_true.mp hA c hcmem
        rw [hcfalse] at hmem
        exact Bool.false_ne_true hmem
    refine ⟨hall, ?_⟩
    rcases hm with hm | hm <;> simp [updateImage, hm, hall]
  · intro himg hne
    cases hA : RollingUpdateImageDependencyReady ctx
    · exfalso
      have hcur : updateImage ctx = ctx.currentImage := by
        rcases hm with hm | hm <;> simp [updateImage, hm, hA]
      rw [hcur] at himg
      exact hne himg.symm
    · rfl

/-- Witness for claim C1 at the 2.6 upgrade dependency graph test: MixCoord
is blocked while its required dependency StreamingNode has no record, and the
image stays pinned to v2.5.0. -/
theorem rollingUpdate_image_gated_witness :
    RollingUpdateImageDependencyReady ctx26 = false ∧ updateImage ctx26 = oldImage26 := by
  exact (rollingUpdate_image_gated ctx26 (Or.inl rfl)).2.2.2.1
    MilvusComponent.streamingNode (by decide) (by decide)

/-- Inserting under a key absent from the map appends the new entry. -/
theorem insertEntry_of_not_mem (m : List (String × DeployStatusEntry)) (k : String)
    (v : DeployStatusEntry) (h : ∀ p ∈ m, p.1 ≠ k) :
    insertEntry m k v = m ++ [(k, v)] := by
  have hany : m.any (fun p => p.1 == k) = false := by
    rw [List.any_eq_false]
    intro p hp hbeq
    exact h p hp (beq_iff_eq.mp hbeq)
  simp [insertEntry, hany]

/-- Folding the aggregator's insert over owned objects with pairwise-distinct
labels, starting from an accumulator disjoint from those labels, adds exactly
one entry per object. -/
theorem buildMapAux_length :
    ∀ (l : List OwnedDeployment) (acc : List (String × DeployStatusEntry)),
      (l.map (fun d => d.componentLabel)).Nodup →
      (∀ d ∈ l, ∀ p ∈ acc, p.1 ≠ d.componentLabel) →
      (l.foldl (fun m d => insertEntry m d.componentLabel (entryOf d)) acc).length
        = acc.length + l.length := by
  intro l
  induction l with
  | nil => intro acc _ _; simp
  | cons d l ih =>
    intro acc hnd hdisj
    rw [List.map_cons, List.nodup_cons] at hnd
    rw [List.foldl_cons]
    have hstep : insertEntry acc d.componentLabel (entryOf d)
        = acc ++ [(d.componentLabel, entryOf d)] :=
      insertEntry_of_not_mem _ _ _ (fun p hp => hdisj d (List.mem_cons_self d l) p hp)
    have hrec := ih (acc ++ [(d.componentLabel, entryOf d)]) hnd.2 (by
      intro d' hd' p hp
      rcases List.mem_append.mp hp with hp | hp
      · exact hdisj d' (List.mem_cons_of_mem d hd') p hp
      · have hp1 : p.1 = d.componentLabel := by rw [List.mem_singleton.mp hp]
        rw [hp1]
        intro heq
        apply hnd.1
        rw [heq]
        exact List.mem_map_of_mem (fun d => d.componentLabel) hd')
    rw [hstep, hrec]
    simp [List.length_append]
    omega

/-- Claim C4: the deploy-status aggregator never fails when the list call
succeeds; zero owned workload objects yield the empty map, and K owned
objects across K distinct component-identity labels yield exactly K map
entries. -/
theorem componentsDeployStatus_update_count :
    componentsDeployStatusUpdate (Except.ok []) = Except.ok []
    ∧ ∀ (l : List OwnedDeployment), (l.map (fun d => d.componentLabel)).Nodup →
        componentsDeployStatusUpdate (Except.ok l) = Except.ok (buildDeployStatusMap l)
        ∧ (buildDeployStatusMap l).length = l.length := by
  constructor
  · rfl
  · intro l hnd
    refine ⟨rfl, ?_⟩
    have h := buildMapAux_length l [] hnd (by intro d _ p hp; exact absurd hp (List.not_mem_nil p))
    simpa [buildDeployStatusMap] using h

/-- Witness for claim C4 at the cluster test: three owned deployments with
three distinct component labels give exactly three entries. -/
theorem componentsDeployStatus_update_count_witness :
    componentsDeployStatusUpdate (Except.ok ownedThree) = Except.ok (buildDeployStatusMap ownedThree)
    ∧ (buildDeployStatusMap ownedThree).length = 3 := by
  have h := (componentsDeployStatus_update_count).2 ownedThree (by decide)
  exact ⟨h.1, h.2⟩

/-- Claim C5: updateDeployment returns an error exactly when setting the
owner back-reference fails; on success every field-local rule is applied
without producing an error. -/
theorem updateDeployment_error_iff (ownerRef : Except String Unit)
    (u : MilvusDeploymentUpdater) (d : DeploymentState) :
    exceptIsOk (updateDeployment ownerRef u d) = exceptIsOk ownerRef
    ∧ (∀ e, updateDeployment (Except.error e) u d = Except.error e)
    ∧ updateDeployment (Except.ok ()) u d = Except.ok (applyDeploymentRules u d) := by
  refine ⟨?_, fun e => rfl, rfl⟩
  cases ownerRef <;> rfl

/-- Refreshing the tool image never changes a container's name. -/
theorem refreshToolImage_name (ti : String) (c : Container) :
    (refreshToolImage ti c).name = c.name := by
  unfold refreshToolImage
  split <;> rfl

/-- The tool-image refresh pass preserves the config-container count. -/
theorem countConfig_map_refresh (ti : String) (l : List Container) :
    countConfig (l.map (refreshToolImage ti)) = countConfig l := by
  unfold countConfig
  induction l with
  | nil => rfl
  | cons c l ih =>
    simp only [List.map_cons, List.countP_cons, ih, refreshToolImage_name]

/-- The tool-image refresh pass preserves config-container presence. -/
theorem containsConfig_map_refresh (ti : String) (l : List Container) :
    containsConfigContainer (l.map (refreshToolImage ti)) = containsConfigContainer l := by
  unfold containsConfigContainer
  induction l with
  | nil => rfl
  | cons c l ih =>
    simp only [List.map_cons, List.any_cons, ih, refreshToolImage_name]

/-- After injection the config container is present. -/
theorem containsConfig_inject (ti : String) (l : List Container) :
    containsConfigContainer (injectConfigContainer ti l) = true := by
  unfold injectConfigContainer
  by_cases h : containsConfigContainer l = true
  · rw [if_pos h]
    exact h
  · rw [if_neg h]
    unfold containsConfigContainer
    rw [List.any_cons]
    simp

/-- A list without any config-named container does not contain the config
container. -/
theorem contains_eq_false_of_countConfig_zero (l : List Container)
    (h : countConfig l = 0) : containsConfigContainer l = false := by
  unfold containsConfigContainer
  rw [List.any_eq_false]
  intro c hcmem
  exact List.countP_eq_zero.mp h c hcmem

/-- Claim C6: when the config init container is present and neither the pod
template changed for another reason nor the force flag is set, the
init-container list (its image field included) is left unchanged; when the
force flag is set or the template changed, the config container's image is
refreshed to the operator tool image; the config container is injected by
name when absent and never duplicated. -/
theorem updateConfigContainer_rules (tc fu : Bool) (ti : String) (l : List Container) :
    (containsConfigContainer l = true → tc = false → fu = false →
      updateConfigContainer tc fu ti l = l)
    ∧ (tc = true ∨ fu = true →
      ∀ c ∈ updateConfigContainer tc fu ti l, c.name = configContainerName → c.image = ti)
    ∧ containsConfigContainer (updateConfigContainer tc fu ti l) = true
    ∧ (countConfig l = 0 → countConfig (updateConfigContainer tc fu ti l) = 1)
    ∧ (containsConfigContainer l = true →
      countConfig (updateConfigContainer tc fu ti l) = countConfig l) := by
  refine ⟨?_, ?_, ?_, ?_, ?_⟩
  · intro hc htc hfu
    simp [updateConfigContainer, injectConfigContainer, hc, htc, hfu]
  · intro h c hcmem hname
    have hcond : (tc || fu) = true := by rcases h with h | h <;> simp [h]
    unfold updateConfigContainer at hcmem
    rw [hcond] at hcmem
    simp only [if_pos] at hcmem
    obtain ⟨c', hc', rfl⟩ := List.mem_map.mp hcmem
    by_cases hn : (c'.name == configContainerName) = true
    · simp [refreshToolImage, hn]
    · exfalso
      rw [refreshToolImage_name] at hname
      exact hn (beq_iff_eq.mpr hname)
  · cases htc : (tc || fu)
    · simp [updateConfigContainer, htc, containsConfig_inject]
    · simp [updateConfigContainer, htc, containsConfig_map_refresh, containsConfig_inject]
  · intro h0
    have hcf : containsConfigContainer l = false := contains_eq_false_of_countConfig_zero l h0
    have h0' : l.countP (fun c => c.name == configContainerName) = 0 := h0
    have hinj : countConfig (injectConfigContainer ti l) = 1 := by
      simp [injectConfigContainer, hcf, countConfig, List.countP_cons, h0']
    cases htc : (tc || fu)
    · simp [updateConfigContainer, htc, hinj]
    · simp only [updateConfigContainer, htc, if_pos, countConfig_map_refresh]
      exact hinj
  · intro hc
    have hinj : injectConfigContainer ti l = l := by simp [injectConfigContainer, hc]
    cases htc : (tc || fu)
    · simp [updateConfigContainer, htc, hinj]
    · simp [updateConfigContainer, htc, countConfig_map_refresh, hinj]

/-- Witness for claim C6: a cleared config container stays untouched when
nothing changed and no force flag is set, and a fresh injection yields
exactly one config container. -/
theorem updateConfigContainer_rules_witness :
    updateConfigContainer false false toolImageSample [bareConfigContainer] = [bareConfigContainer]
    ∧ countConfig (updateConfigContainer true false toolImageSample []) = 1 := by
  constructor
  · exact (updateConfigContainer_rules false false toolImageSample
      [bareConfigContainer]).1 (by decide) rfl rfl
  · exact (updateConfigContainer_rules true false toolImageSample []).2.2.2.1 rfl

/-- Claim C7: the dependency condition getter itself never fails; external or
self-contained dependencies get an unconditional True condition; an
in-cluster managed dependency whose probe fails gets a False condition
carrying the error text as reason, with the getter still returning no error;
self-contained message-stream kinds (rocksmq, custom) are always True. -/
theorem getDependencyCondition_rules (ct : String) (ext sc : Bool)
    (probe : Except String Unit) :
    (∃ cond, GetDependencyCondition ct ext sc probe = Except.ok cond)
    ∧ (ext = true ∨ sc = true →
      GetDependencyCondition ct ext sc probe
        = Except.ok { condType := ct, status := ConditionStatus.condTrue
                      reason := reasonNotManaged })
    ∧ (ext = false → sc = false → ∀ e, probe = Except.error e →
      GetDependencyCondition ct ext sc probe
        = Except.ok { condType := ct, status := ConditionStatus.condFalse, reason := e })
    ∧ (∀ t, msgStreamSelfContained t = true →
      GetMsgStreamCondition t ext probe
        = Except.ok { condType := msgStreamCondType, status := ConditionStatus.condTrue
                      reason := reasonNotManaged }) := by
  refine ⟨?_, ?_, ?_, ?_⟩
  · by_cases h : (ext || sc) = true
    · exact ⟨{ condType := ct, status := ConditionStatus.condTrue, reason := reasonNotManaged },
        by simp [GetDependencyCondition, h]⟩
    · cases probe with
      | ok u =>
        exact ⟨{ condType := ct, status := ConditionStatus.condTrue, reason := reasonProbeOk },
          by simp [GetDependencyCondition, h]⟩
      | error e =>
        exact ⟨{ condType := ct, status := ConditionStatus.condFalse, reason := e },
          by simp [GetDependencyCondition, h]⟩
  · intro h
    have h' : (ext || sc) = true := by rcases h with h | h <;> simp [h]
    simp [GetDependencyCondition, h']
  · intro hx hs e hp
    rw [hp]
    simp [GetDependencyCondition, hx, hs]
  · intro t ht
    unfold GetMsgStreamCondition
    have h' : (ext || msgStreamSelfContained t) = true := by simp [ht]
    simp [GetDependencyCondition, h']

/-- Witness for claim C7: a failing etcd probe yields a False condition with
the error text, and rocksmq is unconditionally True. -/
theorem getDependencyCondition_rules_witness :
    GetDependencyCondition etcdCondType false false (Except.error probeErrText)
      = Except.ok { condType := etcdCondType, status := ConditionStatus.condFalse
                    reason := probeErrText }
    ∧ GetMsgStreamCondition MsgStreamType.rocksmq false (Except.error probeErrText)
      = Except.ok { condType := msgStreamCondType, status := ConditionStatus.condTrue
                    reason := reasonNotManaged } := by
  constructor
  · exact (getDependencyCondition_rules etcdCondType false false
      (Except.error probeErrText)).2.2.1 rfl rfl probeErrText rfl
  · exact (getDependencyCondition_rules etcdCondType false false
      (Except.error probeErrText)).2.2.2 MsgStreamType.rocksmq rfl

/-- Claim C8 counterexample: a Pulsar request whose values deep-equal the
deployed values (both hold only the one-time flag) with no status-driven
update still performs an update instead of the no-op the claim requires,
because Reconcile deletes the flag from the deployed values first. -/
theorem helmReconcile_noop_counterexample :
    pulsarReqCE.values = pulsarValsCE
    ∧ reconcileHelm true pulsarValsCE false pulsarReqCE
      = HelmAction.update [(initKey, HelmVal.b false)]
    ∧ reconcileHelm true pulsarValsCE false pulsarReqCE ≠ HelmAction.noop := by
  refine ⟨rfl, by decide, by decide⟩

/-- Claim C8 (amended): for a release that already exists, Reconcile is a
no-op exactly when the deployed values - after deleting the Pulsar one-time
flag for the Pulsar chart - deep-equal the requested values and the release
status requires no update; when they differ or the status requires an
update, it performs the update. -/
theorem helmReconcile_drift_rules (vals : HelmValues) (needUpdate : Bool)
    (req : ChartRequest) :
    (effectiveDeployedValues req.chart vals = req.values → needUpdate = false →
      reconcileHelm true vals needUpdate req = HelmAction.noop)
    ∧ (effectiveDeployedValues req.chart vals ≠ req.values ∨ needUpdate = true →
      reconcileHelm true vals needUpdate req = HelmAction.update (updateValues req)) := by
  constructor
  · intro h1 h2
    simp [reconcileHelm, h1, h2]
  · intro h
    have hno : ¬(effectiveDeployedValues req.chart vals = req.values ∧ needUpdate = false) := by
      rcases h with h | h
      · exact fun hc => h hc.1
      · intro hc
        rw [h] at hc
        exact Bool.noConfusion hc.2
    simp [reconcileHelm, hno]

/-- Witness for claim C8 (amended) on the etcd chart: matching values are a
no-op and a pending status-driven update triggers the update path. -/
theorem helmReconcile_drift_rules_witness :
    reconcileHelm true etcdValsW false etcdReqW = HelmAction.noop
    ∧ reconcileHelm true [] true etcdReqW = HelmAction.update (updateValues etcdReqW) := by
  constructor
  · exact (helmReconcile_drift_rules etcdValsW false etcdReqW).1 (by decide) rfl
  · exact (helmReconcile_drift_rules [] true etcdReqW).2 (Or.inr rfl)

/-- The Pulsar flag deletion undoes the flag insertion on values that did not
carry the flag. -/
theorem deleteValue_setValue (l : HelmValues) (k : String) (v : HelmVal)
    (h : ∀ p ∈ l, p.1 ≠ k) : deleteValue (setValue l k v) k = l := by
  have hany : l.any (fun p => p.1 == k) = false := by
    rw [List.any_eq_false]
    intro p hp hbeq
    exact h p hp (beq_iff_eq.mp hbeq)
  unfold setValue deleteValue
  rw [if_neg (by simp [hany])]
  rw [List.filter_append]
  have h1 : l.filter (fun p => !(p.1 == k)) = l := by
    rw [List.filter_eq_self]
    intro p hp
    simp only [Bool.not_eq_true', beq_eq_false_iff_ne]
    exact h p hp
  have h2 : List.filter (fun p => !(p.1 == k)) [(k, v)] = [] := by simp
  rw [h1, h2, List.append_nil]

/-- Claim C10: Reconcile special-cases the Pulsar chart around its one-time
flag: first install sets it to true; on later reconciles the flag is removed
from the deployed values before the drift comparison, so the install-time
flag alone never causes a spurious update; and every update sets the flag to
false, never re-triggering initialization. -/
theorem pulsarInitFlag_rules (vals : HelmValues) (needUpdate : Bool) (req : ChartRequest)
    (hp : IsPulsarChartPath req.chart = true)
    (hk : ∀ p ∈ req.values, p.1 ≠ initKey) :
    reconcileHelm false vals needUpdate req
      = HelmAction.install (setValue req.values initKey (HelmVal.b true))
    ∧ (∀ x, reconcileHelm true (setValue req.values initKey x) false req = HelmAction.noop)
    ∧ (deleteValue vals initKey ≠ req.values ∨ needUpdate = true →
      reconcileHelm true vals needUpdate req
        = HelmAction.update (setValue req.values initKey (HelmVal.b false))) := by
  refine ⟨?_, ?_, ?_⟩
  · simp [reconcileHelm, installValues, hp]
  · intro x
    have heq : effectiveDeployedValues req.chart (setValue req.values initKey x)
        = req.values := by
      simp [effectiveDeployedValues, hp, deleteValue_setValue req.values initKey x hk]
    simp [reconcileHelm, heq]
  · intro h
    have heff : effectiveDeployedValues req.chart vals = deleteValue vals initKey := by
      simp [effectiveDeployedValues, hp]
    have hno : ¬(effectiveDeployedValues req.chart vals = req.values ∧ needUpdate = false) := by
      rw [heff]
      rcases h with h | h
      · exact fun hc => h hc.1
      · intro hc
        rw [h] at hc
        exact Bool.noConfusion hc.2
    simp [reconcileHelm, hno, updateValues, hp]

/-- Witness for claim C10: first install of the Pulsar release sets the flag
to true, and a later reconcile whose only difference is that deployed flag is
a no-op. -/
theorem pulsarInitFlag_rules_witness :
    reconcileHelm false [] false pulsarReqW
      = HelmAction.install (setValue pulsarReqW.values initKey (HelmVal.b true))
    ∧ reconcileHelm true (setValue pulsarReqW.values initKey (HelmVal.b true)) false pulsarReqW
      = HelmAction.noop := by
  have h := pulsarInitFlag_rules [] false pulsarReqW (by decide) (by decide)
  exact ⟨h.1, h.2.1 (HelmVal.b true)⟩

end MilvusOperator
